import Mathlib

/-!
Shallow embedding of the document store repository of this project.

The repository has two backend variants over one Postgres table:
* the "nodes" backend (`nodeRepository.ts` + `db.ts` + Express routes):
  `NodeRepository.create/read/update/delete/list/search/findByTag`;
* the "docs" backend (`DocService.ts` + `server.ts`):
  `DocServiceLive.create/getAll/getById/update/delete/search`.

Rows are modelled as `Doc` records; the table is a `Store` (list of rows).
The SQL each operation sends to Postgres is embedded as a pure function on
a `Store`: `WHERE` becomes `List.filter`, `ORDER BY` becomes
`List.insertionSort` with the corresponding key relation, `LIMIT n` becomes
`List.take n`.  `LOWER` / `ILIKE '%q%'` / `.toLowerCase()` / `.trim()` are
modelled for ASCII text by the string helpers below.  Generated values
(`uuidv4()`, `gen_random_uuid()`, `NOW()`) are passed in explicitly as the
`freshId` / `now` parameters.
-/

namespace DbSpec

/-- ASCII lowercasing of one character, as done by `LOWER(...)` in Postgres
and `String.prototype.toLowerCase` in JS for ASCII input. -/
def lowerChar (c : Char) : Char :=
  if 'A' ≤ c ∧ c ≤ 'Z' then Char.ofNat (c.toNat + 32) else c

/-- ASCII lowercasing of a string. -/
def lowerStr (s : String) : String :=
  ⟨s.data.map lowerChar⟩

/-- `startsWithChars needle hay`: `needle` is a prefix of `hay`. -/
def startsWithChars : List Char → List Char → Bool
  | [], _ => true
  | _ :: _, [] => false
  | a :: as, b :: bs => a == b && startsWithChars as bs

/-- `containsChars needle hay`: `needle` occurs as a contiguous substring
of `hay`. -/
def containsChars : List Char → List Char → Bool
  | needle, [] => needle.isEmpty
  | needle, hay@(_ :: t) => startsWithChars needle hay || containsChars needle t

/-- SQL `hay LIKE '%' || needle || '%'` for a needle that contains no
`%`/`_` wildcard characters: substring containment. -/
def likeSub (hay needle : String) : Bool :=
  containsChars needle.data hay.data

/-- SQL `hay ILIKE '%' || needle || '%'` (and equally
`LOWER(hay) LIKE '%' || lower(needle) || '%'`): case-insensitive substring
containment. -/
def ilikeSub (hay needle : String) : Bool :=
  likeSub (lowerStr hay) (lowerStr needle)

/-- Whitespace characters removed by `String.prototype.trim`. -/
def isWsChar (c : Char) : Bool :=
  c == ' ' || c == '\t' || c == '\n' || c == '\r'

/-- JS `String.prototype.trim`: strip leading and trailing whitespace. -/
def jsTrim (s : String) : String :=
  ⟨((s.data.dropWhile isWsChar).reverse.dropWhile isWsChar).reverse⟩

/-- Split a string into its lowercased whitespace-separated words. -/
def wordsAux : List Char → List Char → List String
  | [], acc => if acc.isEmpty then [] else [⟨acc.reverse⟩]
  | c :: cs, acc =>
    if isWsChar c then
      if acc.isEmpty then wordsAux cs [] else (⟨acc.reverse⟩ : String) :: wordsAux cs []
    else wordsAux cs (c :: acc)

/-- Lowercased word list of a string. -/
def words (s : String) : List String :=
  wordsAux (lowerStr s).data []

/-- Model of Postgres
`to_tsvector('english', text) @@ plainto_tsquery('english', q)` restricted
to texts and queries whose words are ASCII, are their own English stems and
are not stop words: every word of `q` occurs as a word of `text`
(case-insensitively), and `q` has at least one word
(`plainto_tsquery` of an empty query matches nothing). -/
def tsMatchSimple (text q : String) : Bool :=
  let qs := words q
  !qs.isEmpty && qs.all (fun w => (words text).contains w)

/-- One row of the `nodes`/`docs` table.  `data` holds the textual
serialization of the JSONB value (what `data::text` yields); `created_at`
is a timestamp, larger meaning newer. -/
structure Doc where
  id : Nat
  label : String
  data : String
  tags : List String
  created_at : Nat
deriving DecidableEq, Repr

/-- The table: a list of rows. -/
abbrev Store := List Doc

/-- The ids present in a store. -/
def ids (s : Store) : List Nat := s.map Doc.id

/-- `ORDER BY created_at DESC` key relation. -/
def createdDesc (a b : Doc) : Prop := b.created_at ≤ a.created_at

instance : DecidableRel createdDesc := fun a b => Nat.decLe b.created_at a.created_at

instance : IsTotal Doc createdDesc :=
  ⟨fun a b => Nat.le_total b.created_at a.created_at⟩

instance : IsTrans Doc createdDesc :=
  ⟨fun _ _ _ h1 h2 => Nat.le_trans h2 h1⟩

/-- `SELECT * FROM t ORDER BY created_at DESC`. -/
def orderByCreatedDesc (s : Store) : Store :=
  List.insertionSort createdDesc s

/-! ### The "nodes" backend: `NodeRepository` (`nodeRepository.ts`) -/

/-- The `NodeNotFound` error of `nodeRepository.ts`. -/
structure NodeNotFound where
  id : Nat
deriving DecidableEq, Repr

/-- `NodeRepository.create`: `INSERT INTO nodes (id, label, data, tags,
created_at) VALUES ($1,$2,$3,$4,$5) RETURNING ...` with `id = uuidv4()`
and `now = new Date()` passed in as the generated values.  Tags are stored
exactly as supplied (the TS signature defaults `tags` to `[]` when the
caller omits it). -/
def nodeCreate (freshId : Nat) (now : Nat) (label : String) (data : String)
    (tags : List String) (s : Store) : Doc × Store :=
  let d : Doc := { id := freshId, label := label, data := data, tags := tags, created_at := now }
  (d, s ++ [d])

/-- `NodeRepository.update`: `UPDATE nodes SET label = $1, data = $2,
tags = $3 WHERE id = $4 RETURNING ...`, failing with `NodeNotFound` when no
row was updated.  All three columns are always set; the TS signature
defaults `tags` to `[]` when the caller omits it. -/
def nodeUpdate (id : Nat) (label : String) (data : String) (tags : List String)
    (s : Store) : Except NodeNotFound (Doc × Store) :=
  match s.find? (fun d => d.id == id) with
  | none => .error ⟨id⟩
  | some old =>
    .ok ({ old with label := label, data := data, tags := tags },
         s.map (fun r => if r.id == id then { r with label := label, data := data, tags := tags } else r))

/-- `NodeRepository.delete`: `DELETE FROM nodes WHERE id = $1 RETURNING id`;
fails with `NodeNotFound` when no row was deleted. -/
def nodeDelete (id : Nat) (s : Store) : Except NodeNotFound Store :=
  if (s.filter (fun d => d.id == id)).length == 0 then .error ⟨id⟩
  else .ok (s.filter (fun d => d.id != id))

/-- `NodeRepository.list`: `SELECT * FROM nodes ORDER BY created_at DESC`. -/
def nodeList (s : Store) : Store := orderByCreatedDesc s

/-- `NodeRepository.findByTag`: `SELECT * FROM nodes WHERE $1 = ANY(tags)
ORDER BY created_at DESC` with parameter `tag.toLowerCase()`: exact
membership of the lowercased query in the stored tag array. -/
def nodeFindByTag (tag : String) (s : Store) : Store :=
  orderByCreatedDesc (s.filter (fun d => d.tags.contains (lowerStr tag)))

/-- The `WHERE` clause of `NodeRepository.search`:
`to_tsvector('english', label || ' ' || COALESCE(data::text,'')) @@
plainto_tsquery('english',$1) OR label ILIKE $2 OR data::text ILIKE $2`
with `$2 = '%' || query || '%'`.  `tsm` is the text-search match
(`tsMatchSimple` on stem-free ASCII words). -/
def nodeMatches (tsm : String → String → Bool) (q : String) (d : Doc) : Bool :=
  tsm (d.label ++ " " ++ d.data) q || ilikeSub d.label q || ilikeSub d.data q

/-- The `CASE` rank of `NodeRepository.search`'s `ORDER BY`:
1 when `label ILIKE '%q%'`, else 2 when
`to_tsvector('english', label) @@ plainto_tsquery('english', q)`, else 3. -/
def nodeTier (tsm : String → String → Bool) (q : String) (d : Doc) : Nat :=
  if ilikeSub d.label q then 1 else if tsm d.label q then 2 else 3

/-- The `ORDER BY` key relation of `NodeRepository.search`:
rank ascending, then `created_at DESC`. -/
def nodeSearchLe (tsm : String → String → Bool) (q : String) (a b : Doc) : Prop :=
  nodeTier tsm q a < nodeTier tsm q b ∨
    (nodeTier tsm q a = nodeTier tsm q b ∧ b.created_at ≤ a.created_at)

instance (tsm : String → String → Bool) (q : String) : DecidableRel (nodeSearchLe tsm q) :=
  fun a b => inferInstanceAs (Decidable (_ ∨ _ ∧ _))

instance (tsm : String → String → Bool) (q : String) : IsTotal Doc (nodeSearchLe tsm q) :=
  ⟨fun a b => by unfold nodeSearchLe; omega⟩

instance (tsm : String → String → Bool) (q : String) : IsTrans Doc (nodeSearchLe tsm q) :=
  ⟨fun a b c h1 h2 => by unfold nodeSearchLe at h1 h2 ⊢; omega⟩

/-- `NodeRepository.search` (no limit parameter; `LIMIT 100` is fixed in
the SQL). -/
def nodeSearch (tsm : String → String → Bool) (q : String) (s : Store) : Store :=
  (List.insertionSort (nodeSearchLe tsm q) (s.filter (nodeMatches tsm q))).take 100

/-- JS falsiness of the optional string field `req.body.label`:
`!label` is true exactly when the field is absent or the empty string. -/
def jsFalsyStr : Option String → Bool
  | none => true
  | some s => s == ""

/-- The Express `POST /api/nodes` route: rejects a missing or empty label
with HTTP 400 `"Label is required"`, otherwise calls
`repo.create(label, data || {}, tags || [])` and answers 201. -/
def nodesCreateRoute (label : Option String) (data : Option String)
    (tags : Option (List String)) (freshId now : Nat) (s : Store) :
    Except (Nat × String) (Nat × Doc × Store) :=
  if jsFalsyStr label then .error (400, "Label is required")
  else
    let r := nodeCreate freshId now (label.getD "") (data.getD "\x7b\x7d") (tags.getD []) s
    .ok (201, r.1, r.2)

/-! ### The "docs" backend: `DocServiceLive` (`DocService.ts`), tag-aware
variant; the no-tags variant is identical minus the `tags` column and the
tag clause of `search`. -/

/-- `DocInput`: `label` required, `data` and `tags` optional.  `data` is
the textual serialization the service computes with
`JSON.stringify(input.data ?? {})`. -/
structure DocInput where
  label : String
  data : Option String
  tags : Option (List String)

/-- `DocUpdate`: id plus three independently optional fields. -/
structure DocUpdate where
  id : Nat
  label : Option String
  data : Option String
  tags : Option (List String)

/-- `SearchRequest`: query plus optional limit. -/
structure SearchRequest where
  query : String
  limit : Option Nat

/-- `DocServiceLive.create`: `INSERT INTO docs (label, tags, data) VALUES
($1,$2,$3) RETURNING ...`; `freshId`/`now` stand for the generated
`gen_random_uuid()` / `NOW()` column defaults; absent `data` becomes
`"{}"` (`JSON.stringify(input.data ?? {})`), absent `tags` becomes `[]`.
No validation is performed. -/
def docCreate (input : DocInput) (freshId now : Nat) (s : Store) : Doc × Store :=
  let d : Doc := { id := freshId, label := input.label, data := input.data.getD "\x7b\x7d",
                   tags := input.tags.getD [], created_at := now }
  (d, s ++ [d])

/-- `DocServiceLive.getAll`: `SELECT ... FROM docs ORDER BY created_at DESC`. -/
def docGetAll (s : Store) : Store := orderByCreatedDesc s

/-- `DocServiceLive.getById`: `SELECT ... FROM docs WHERE id = $1`, first
row or `null` (the HTTP layer maps `null` to 404 Not found). -/
def docGetById (id : Nat) (s : Store) : Option Doc :=
  s.find? (fun d => d.id == id)

/-- The per-row effect of a `DocUpdate`: each provided field overwrites,
each omitted field keeps the stored value. -/
def applyDocUpdate (u : DocUpdate) (d : Doc) : Doc :=
  { d with label := u.label.getD d.label, tags := u.tags.getD d.tags,
           data := u.data.getD d.data }

/-- `DocServiceLive.update`: when label, data and tags are all omitted it
runs a plain `SELECT` (no-op read); otherwise it runs `UPDATE docs SET
<provided fields> WHERE id = $n RETURNING ...`.  Returns the resulting row
or `null` when the id is absent. -/
def docUpdate (u : DocUpdate) (s : Store) : Option Doc × Store :=
  match u.label, u.data, u.tags with
  | none, none, none => (s.find? (fun d => d.id == u.id), s)
  | _, _, _ =>
    ((s.find? (fun d => d.id == u.id)).map (applyDocUpdate u),
     s.map (fun d => if d.id == u.id then applyDocUpdate u d else d))

/-- `DocServiceLive.delete`: `DELETE FROM docs WHERE id = $1` and then
`return true` unconditionally — the reported success does not depend on
whether a row existed. -/
def docDelete (id : Nat) (s : Store) : Bool × Store :=
  (true, s.filter (fun d => d.id != id))

/-- The `WHERE` clause of `DocServiceLive.search` for a non-empty trimmed
query: `LOWER(label) LIKE $1 OR LOWER(data::text) LIKE $1 OR EXISTS
(SELECT 1 FROM unnest(tags) t WHERE LOWER(t) LIKE $1)` with
`$1 = '%' || queryText.toLowerCase() || '%'`. -/
def docMatches (q : String) (d : Doc) : Bool :=
  ilikeSub d.label q || ilikeSub d.data q || d.tags.any (fun t => ilikeSub t q)

/-- The `CASE` rank of `DocServiceLive.search`'s `ORDER BY`: 0 when
`LOWER(label) LIKE '%q%'`, else 1. -/
def docTier (q : String) (d : Doc) : Nat :=
  if ilikeSub d.label q then 0 else 1

/-- The `ORDER BY` key relation of `DocServiceLive.search`: rank ascending,
then `created_at DESC`. -/
def docSearchLe (q : String) (a b : Doc) : Prop :=
  docTier q a < docTier q b ∨ (docTier q a = docTier q b ∧ b.created_at ≤ a.created_at)

instance (q : String) : DecidableRel (docSearchLe q) :=
  fun a b => inferInstanceAs (Decidable (_ ∨ _ ∧ _))

instance (q : String) : IsTotal Doc (docSearchLe q) :=
  ⟨fun a b => by unfold docSearchLe; omega⟩

instance (q : String) : IsTrans Doc (docSearchLe q) :=
  ⟨fun a b c h1 h2 => by unfold docSearchLe at h1 h2 ⊢; omega⟩

/-- `DocServiceLive.search`: trims the query; when the trimmed query is
empty (JS `if (!queryText)`) it returns `getAll` truncated to the limit,
otherwise the ranked substring search with `LIMIT`; the limit defaults to
50 (`request.limit ?? 50`). -/
def docSearch (req : SearchRequest) (s : Store) : Store :=
  let queryText := jsTrim req.query
  let limit := req.limit.getD 50
  if queryText = "" then (orderByCreatedDesc s).take limit
  else
    (List.insertionSort (docSearchLe queryText) (s.filter (docMatches queryText))).take limit

/-! ### The database layer retry model (`db.ts` / the docs `query` helper) -/

/-- A failed query attempt, tagged with whether the underlying failure is
transient (connection reset, timeout) or not (constraint/SQL error).  The
code never inspects this flag. -/
structure DbFailure where
  message : String
  transient : Bool
deriving DecidableEq, Repr

/-- Retry combinator of `Effect.retry` with a retry-count bound: run
attempt `i`; on success stop, on failure retry while retries remain.
Returns the final outcome and the number of attempts executed. -/
def retryLoop (attempts : Nat → Except DbFailure α) (i : Nat) :
    Nat → Except DbFailure α × Nat
  | 0 => (attempts i, i + 1)
  | n + 1 =>
    match attempts i with
    | .ok a => (.ok a, i + 1)
    | .error _ => retryLoop attempts (i + 1) n

/-- `db.ts` `Database.query`/`queryOne`/`execute`: every failure is retried
via `Effect.retry({ times: 2, schedule: Schedule.exponential(500) })` —
up to 2 retries (3 attempts), regardless of the failure's kind. -/
def dbQuery (attempts : Nat → Except DbFailure α) : Except DbFailure α × Nat :=
  retryLoop attempts 0 2

/-- Retry delays of `Schedule.exponential(500)` over the 2 retries:
500·2ⁱ ms. -/
def dbRetryDelaysMs : List Nat :=
  (List.range 2).map (fun i => 500 * 2 ^ i)

/-- The docs backend's `query` helper (`DocService.ts`): a bare
`Effect.tryPromise` with no retry — exactly one attempt, whatever the
outcome. -/
def docQuery (attempts : Nat → Except DbFailure α) : Except DbFailure α × Nat :=
  (attempts 0, 1)

/-! ### Concrete stores used by counterexamples and witnesses -/

/-- Older row matched only through its data and a full-text label match:
label `"fast run"` contains both words of the query `"run fast"` but not
the substring; data contains `"run fast"` verbatim. -/
def searchCexOld : Doc :=
  { id := 1, label := "fast run", data := "\x7b\x22k\x22: \x22run fast\x22\x7d",
    tags := [], created_at := 1 }

/-- Newer row matched only through its data: label `"zzz"` matches the
query `"run fast"` neither as substring nor by full text. -/
def searchCexNew : Doc :=
  { id := 2, label := "zzz", data := "\x7b\x22k\x22: \x22run fast\x22\x7d",
    tags := [], created_at := 2 }

/-- 51 rows whose label `"a"` all substring-match the query `"a"`. -/
def manyDocsStore : Store :=
  (List.range 51).map
    (fun i => { id := i, label := "a", data := "\x7b\x7d", tags := [], created_at := i })

/-! ## Claim theorems -/

/-- Claim C1, counterexample: creating a document with tags `["Urgent"]`
and then calling `findByTag("urgent")` returns the empty list, not the
document — `NodeRepository.create` stores tags verbatim (no lowercasing)
and `findByTag` compares its lowercased argument for exact membership, so
`"urgent" ≠ "Urgent"` and the document is missed. -/
theorem C1_counterexample :
    nodeFindByTag "urgent" (nodeCreate 1 0 "doc" "\x7b\x7d" ["Urgent"] []).2 = [] ∧
    (nodeCreate 1 0 "doc" "\x7b\x7d" ["Urgent"] []).1.tags = ["Urgent"] := by
  constructor <;> decide

/-- Claim C1, amended: tags are stored exactly as supplied at creation
(no lowercase normalization); `findByTag(t)` lowercases only the query
and returns precisely the stored documents whose tag array contains
`lowercase(t)` — so a document created with the lowercase tag is found
under any casing of the query, while one created with `"Urgent"` is
never found by `findByTag("urgent")`. -/
theorem C1_findByTag_lowercases_query_only :
    (∀ (t : String) (s : Store) (d : Doc),
      d ∈ nodeFindByTag t s ↔ d ∈ s ∧ lowerStr t ∈ d.tags) ∧
    (∀ (freshId now : Nat) (label data : String) (tags : List String) (s : Store),
      (nodeCreate freshId now label data tags s).1.tags = tags) := by
  constructor
  · intro t s d
    simp [nodeFindByTag, orderByCreatedDesc, List.mem_insertionSort, List.mem_filter,
      List.contains, List.elem_iff]
  · intro freshId now label data tags s
    rfl

/-- Claim C1, witness: a document stored with lowercase tag `"urgent"` is
returned by `findByTag("URGENT")`. -/
theorem C1_witness :
    ({ id := 7, label := "x", data := "\x7b\x7d", tags := ["urgent"], created_at := 3 } : Doc) ∈
      nodeFindByTag "URGENT"
        [{ id := 7, label := "x", data := "\x7b\x7d", tags := ["urgent"], created_at := 3 }] :=
  (C1_findByTag_lowercases_query_only.1 "URGENT" _ _).mpr (by decide)

/-- Claim C2, counterexample: `NodeRepository.update` called with the
`tags` argument omitted (the TS parameter default supplies `[]`, and the
Express route likewise passes `tags || []`) replaces the stored tags
`["keep"]` with `[]` instead of retaining them. -/
theorem C2_counterexample :
    nodeUpdate 1 "a" "\x7b\x7d" []
        [{ id := 1, label := "a", data := "\x7b\x7d", tags := ["keep"], created_at := 0 }] =
      .ok ({ id := 1, label := "a", data := "\x7b\x7d", tags := [], created_at := 0 },
        [{ id := 1, label := "a", data := "\x7b\x7d", tags := [], created_at := 0 }]) ∧
    (["keep"] : List String) ≠ [] := by
  constructor
  · rfl
  · decide

/-- Claim C2, amended: `DocServiceLive.update` retains every omitted field
(label, data, tags) and, when all three are omitted, leaves the store
unchanged and returns the stored document (no-op read); `NodeRepository.update`,
by contrast, always overwrites all three columns, an omitted `tags`
argument defaulting to the empty array. -/
theorem C2_update_field_retention :
    (∀ (u : DocUpdate) (s : Store) (old upd : Doc),
      docGetById u.id s = some old → (docUpdate u s).1 = some upd →
      (u.label = none → upd.label = old.label) ∧
      (u.data = none → upd.data = old.data) ∧
      (u.tags = none → upd.tags = old.tags) ∧
      (u.label = none → u.data = none → u.tags = none →
        upd = old ∧ (docUpdate u s).2 = s)) ∧
    (∀ (id : Nat) (l dt : String) (tg : List String) (s : Store) (d : Doc) (s' : Store),
      nodeUpdate id l dt tg s = .ok (d, s') →
      d.label = l ∧ d.data = dt ∧ d.tags = tg) := by
  constructor
  · intro u s old upd hold hupd
    rcases hl : u.label with _ | l <;> rcases hd : u.data with _ | dv <;>
      rcases ht : u.tags with _ | tv <;>
      simp [docUpdate, hl, hd, ht, docGetById] at hupd <;>
      simp [docGetById] at hold
    · simp [hold] at hupd
      cases hupd
      simp [docUpdate, hl, hd, ht]
    all_goals
      rw [hold] at hupd
      simp at hupd
      simp [← hupd, applyDocUpdate, hl, hd, ht]
  · intro id l dt tg s d s' h
    unfold nodeUpdate at h
    rcases hf : s.find? (fun x => x.id == id) with _ | old <;> rw [hf] at h
    · exact absurd h (by simp)
    · cases h
      exact ⟨rfl, rfl, rfl⟩

/-- Claim C2, witness: updating only the label of a stored document leaves
its data and tags as they were. -/
theorem C2_witness :
    ({ id := 1, label := "new", data := "d", tags := ["t"], created_at := 0 } : Doc).data =
      ({ id := 1, label := "old", data := "d", tags := ["t"], created_at := 0 } : Doc).data ∧
    ({ id := 1, label := "new", data := "d", tags := ["t"], created_at := 0 } : Doc).tags =
      ({ id := 1, label := "old", data := "d", tags := ["t"], created_at := 0 } : Doc).tags := by
  have h := C2_update_field_retention.1 { id := 1, label := some "new", data := none, tags := none }
    [{ id := 1, label := "old", data := "d", tags := ["t"], created_at := 0 }]
    { id := 1, label := "old", data := "d", tags := ["t"], created_at := 0 }
    { id := 1, label := "new", data := "d", tags := ["t"], created_at := 0 } rfl rfl
  exact ⟨h.2.1 rfl, h.2.2.1 rfl⟩

/-- Claim C3, counterexample: `DocServiceLive.delete` of an id absent from
the store reports success (`true`) instead of failing with `NotFound` —
the implementation runs the `DELETE` and returns `true` unconditionally. -/
theorem C3_counterexample :
    docDelete 5 ([] : Store) = (true, []) ∧ docGetById 5 ([] : Store) = none := by
  constructor <;> rfl

/-- Claim C3, amended: `NodeRepository.delete` fails with `NodeNotFound`
when the id is absent (no row deleted), but `DocServiceLive.delete`
reports success for every id, present or not. -/
theorem C3_delete_missing_id :
    (∀ (id : Nat) (s : Store), (∀ d ∈ s, d.id ≠ id) → nodeDelete id s = .error ⟨id⟩) ∧
    (∀ (id : Nat) (s : Store), (docDelete id s).1 = true) := by
  constructor
  · intro id s h
    have hnil : s.filter (fun d => d.id == id) = [] := by
      rw [List.filter_eq_nil_iff]
      intro a ha
      simpa using h a ha
    simp [nodeDelete, hnil]
  · intro id s
    rfl

/-- Claim C3, witness: deleting id 5 from a store holding only id 1 fails
with `NodeNotFound 5` in the nodes backend, while the docs backend reports
success on the empty store. -/
theorem C3_witness :
    nodeDelete 5 [⟨1, "a", "x", [], 0⟩] = .error ⟨5⟩ ∧
    (docDelete 5 ([] : Store)).1 = true :=
  ⟨C3_delete_missing_id.1 5 _ (by decide), C3_delete_missing_id.2 5 []⟩

/-- Claim C4, counterexample: `NodeRepository.search` takes no limit
argument and its SQL caps at `LIMIT 100`, so on a store of 51 matching
documents it returns 51 results — more than the claimed default limit
of 50. -/
theorem C4_counterexample :
    (nodeSearch tsMatchSimple "a" manyDocsStore).length = 51 ∧
    ¬ (nodeSearch tsMatchSimple "a" manyDocsStore).length ≤ 50 := by
  constructor <;> decide

/-- Claim C4, amended: `DocServiceLive.search` returns at most `limit`
documents with `limit` defaulting to 50 when not supplied, while
`NodeRepository.search` has no limit parameter and returns at most 100. -/
theorem C4_search_limit :
    (∀ (req : SearchRequest) (s : Store),
      (docSearch req s).length ≤ req.limit.getD 50) ∧
    (∀ (tsm : String → String → Bool) (q : String) (s : Store),
      (nodeSearch tsm q s).length ≤ 100) := by
  constructor
  · intro req s
    by_cases h : jsTrim req.query = "" <;>
      simp [docSearch, h, List.length_take]
  · intro tsm q s
    simp [nodeSearch, List.length_take]

/-- Claim C5, counterexample: `DocServiceLive.create` with an empty label
succeeds and inserts the row — no `ValidationError` is raised anywhere in
the docs service (its HTTP route only checks that `label` is a string). -/
theorem C5_counterexample :
    docCreate ⟨"", none, none⟩ 1 0 [] =
      ({ id := 1, label := "", data := "\x7b\x7d", tags := [], created_at := 0 },
       [{ id := 1, label := "", data := "\x7b\x7d", tags := [], created_at := 0 }]) := by
  rfl

/-- Claim C5, amended: only the nodes Express route rejects a missing or
empty label, with HTTP 400 `"Label is required"`; the repository-level
creates perform no validation and succeed for every label, the generated
id and creation timestamp (the `freshId`/`now` parameters standing for
`uuidv4()`/`gen_random_uuid()` and `NOW()`) being attached to the new
row. -/
theorem C5_create_validation :
    (∀ (data : Option String) (tags : Option (List String)) (freshId now : Nat) (s : Store),
      nodesCreateRoute none data tags freshId now s = .error (400, "Label is required") ∧
      nodesCreateRoute (some "") data tags freshId now s = .error (400, "Label is required")) ∧
    (∀ (label : String) (data : Option String) (tags : Option (List String))
        (freshId now : Nat) (s : Store), label ≠ "" →
      nodesCreateRoute (some label) data tags freshId now s =
        .ok (201, nodeCreate freshId now label (data.getD "\x7b\x7d") (tags.getD []) s)) ∧
    (∀ (input : DocInput) (freshId now : Nat) (s : Store),
      (docCreate input freshId now s).1.id = freshId ∧
      (docCreate input freshId now s).1.created_at = now ∧
      (docCreate input freshId now s).2 = s ++ [(docCreate input freshId now s).1]) := by
  refine ⟨fun data tags freshId now s => ⟨rfl, rfl⟩, ?_,
    fun input freshId now s => ⟨rfl, rfl, rfl⟩⟩
  intro label data tags freshId now s h
  have hf : jsFalsyStr (some label) = false := by
    simp [jsFalsyStr, h]
  simp [nodesCreateRoute, hf]

/-- Claim C5, witness: the route rejects the empty label with 400 and
accepts the label `"Invoice"` with 201. -/
theorem C5_witness :
    nodesCreateRoute (some "") none none 1 0 [] = .error (400, "Label is required") ∧
    nodesCreateRoute (some "Invoice") none none 1 0 [] =
      .ok (201, nodeCreate 1 0 "Invoice" "\x7b\x7d" [] []) :=
  ⟨(C5_create_validation.1 none none 1 0 []).2,
   C5_create_validation.2.1 "Invoice" none none 1 0 [] (by decide)⟩

/-- Claim C6, counterexample: under the claim's two tiers (label
substring-match before everything else, `docTier`), the rows
`searchCexOld` and `searchCexNew` both sit in the non-label tier for the
query `"run fast"`, yet `NodeRepository.search` returns the older one
first: its intermediate full-text-on-label SQL tier outranks recency, so
documents matching only in data are not newest-first among themselves. -/
theorem C6_counterexample :
    nodeSearch tsMatchSimple "run fast" [searchCexOld, searchCexNew] =
      [searchCexOld, searchCexNew] ∧
    docTier "run fast" searchCexOld = 1 ∧
    docTier "run fast" searchCexNew = 1 ∧
    searchCexOld.created_at < searchCexNew.created_at ∧
    ¬ (nodeSearch tsMatchSimple "run fast" [searchCexOld, searchCexNew]).Pairwise
        (fun a b => docTier "run fast" a ≤ docTier "run fast" b ∧
          (docTier "run fast" a = docTier "run fast" b → b.created_at ≤ a.created_at)) := by
  refine ⟨by decide, by decide, by decide, by decide, by decide⟩

/-- Claim C6, amended: `DocServiceLive.search` orders exactly as claimed —
every label substring-matcher before every document matching only in data
or tags, ties broken newest-created-first; `NodeRepository.search` instead
ranks by three tiers (label substring, then label full-text, then the
rest), newest-first only within each of its own tiers. -/
theorem C6_search_ordering :
    (∀ (req : SearchRequest) (s : Store), jsTrim req.query ≠ "" →
      (docSearch req s).Pairwise (fun a b =>
        docTier (jsTrim req.query) a ≤ docTier (jsTrim req.query) b ∧
          (docTier (jsTrim req.query) a = docTier (jsTrim req.query) b →
            b.created_at ≤ a.created_at))) ∧
    (∀ (tsm : String → String → Bool) (q : String) (s : Store),
      (nodeSearch tsm q s).Pairwise (fun a b =>
        nodeTier tsm q a ≤ nodeTier tsm q b ∧
          (nodeTier tsm q a = nodeTier tsm q b → b.created_at ≤ a.created_at))) := by
  constructor
  · intro req s h
    have hp : (docSearch req s).Pairwise (docSearchLe (jsTrim req.query)) := by
      simp only [docSearch, h, if_false, reduceIte]
      exact List.Pairwise.sublist (List.take_sublist _ _)
        (List.sorted_insertionSort (docSearchLe (jsTrim req.query)) _)
    refine hp.imp ?_
    intro a b hab
    unfold docSearchLe at hab
    omega
  · intro tsm q s
    have hp : (nodeSearch tsm q s).Pairwise (nodeSearchLe tsm q) :=
      List.Pairwise.sublist (List.take_sublist _ _)
        (List.sorted_insertionSort (nodeSearchLe tsm q) _)
    refine hp.imp ?_
    intro a b hab
    unfold nodeSearchLe at hab
    omega

/-- Claim C6, witness: the tier-then-recency ordering instantiated on a
two-document store and the query `"run"`. -/
theorem C6_witness :
    (docSearch { query := "run", limit := some 10 }
        [searchCexOld, searchCexNew]).Pairwise (fun a b =>
      docTier (jsTrim "run") a ≤ docTier (jsTrim "run") b ∧
        (docTier (jsTrim "run") a = docTier (jsTrim "run") b →
          b.created_at ≤ a.created_at)) :=
  C6_search_ordering.1 { query := "run", limit := some 10 }
    [searchCexOld, searchCexNew] (by decide)

/-- Claim C7: `DocServiceLive.search` with the empty-string query returns
exactly `getAll` (all documents, newest-created-first) truncated to the
limit, which defaults to 50 when not supplied. -/
theorem C7_empty_query_equals_list_truncated :
    ∀ (req : SearchRequest) (s : Store), req.query = "" →
      docSearch req s = (docGetAll s).take (req.limit.getD 50) := by
  intro req s h
  simp [docSearch, h, jsTrim, docGetAll]

/-- Claim C7, witness: the empty query on a two-document store with
limit 1. -/
theorem C7_witness :
    docSearch { query := "", limit := some 1 } [searchCexOld, searchCexNew] =
      (docGetAll [searchCexOld, searchCexNew]).take 1 :=
  C7_empty_query_equals_list_truncated { query := "", limit := some 1 }
    [searchCexOld, searchCexNew] rfl

/-- Claim C8: a freshly created document is returned unchanged by
`getById` on its generated id (same id, label, data, tags, created_at);
and after `delete(id)` — which always succeeds — `getById id` yields
`none`, which the HTTP layer surfaces as 404 `NotFound`. -/
theorem C8_create_get_delete :
    (∀ (input : DocInput) (freshId now : Nat) (s : Store), freshId ∉ ids s →
      docGetById (docCreate input freshId now s).1.id (docCreate input freshId now s).2 =
        some (docCreate input freshId now s).1) ∧
    (∀ (id : Nat) (s : Store), docGetById id (docDelete id s).2 = none) := by
  constructor
  · intro input freshId now s h
    have hnone : (s.find? (fun d => d.id == freshId)) = none := by
      rw [List.find?_eq_none]
      intro x hx
      simp only [beq_iff_eq]
      intro heq
      simp only [ids] at h
      exact h (heq ▸ List.mem_map_of_mem Doc.id hx)
    simp [docGetById, docCreate, List.find?_append, hnone]
  · intro id s
    rw [docGetById, List.find?_eq_none]
    intro x hx
    have hne := (List.mem_filter.mp hx).2
    simp at hne ⊢
    exact hne

/-- Claim C8, witness: create into an empty store, read it back, and
observe `getById` after a delete. -/
theorem C8_witness :
    docGetById (docCreate ⟨"Invoice", some "42", some ["finance"]⟩ 5 9 []).1.id
        (docCreate ⟨"Invoice", some "42", some ["finance"]⟩ 5 9 []).2 =
      some (docCreate ⟨"Invoice", some "42", some ["finance"]⟩ 5 9 []).1 ∧
    docGetById 3 (docDelete 3 [searchCexOld, searchCexNew]).2 = none :=
  ⟨C8_create_get_delete.1 ⟨"Invoice", some "42", some ["finance"]⟩ 5 9 [] (by decide),
   C8_create_get_delete.2 3 [searchCexOld, searchCexNew]⟩

/-- Claim C9, counterexample: the nodes database layer retries a
non-transient failure — three attempts are executed when every attempt
fails with a constraint violation (`transient := false`), though the claim
says non-transient failures are never retried; and the docs backend's
`query` helper executes exactly one attempt on a transient connection
reset, though the claim says transient failures are retried. -/
theorem C9_counterexample :
    (dbQuery (fun _ => .error
        (⟨"duplicate key value violates unique constraint", false⟩ : DbFailure)) :
      Except DbFailure Nat × Nat).2 = 3 ∧
    (docQuery (fun _ => .error (⟨"connection reset", true⟩ : DbFailure)) :
      Except DbFailure Nat × Nat).2 = 1 := by
  constructor <;> rfl

/-- Claim C9, amended: the nodes `Database` layer retries every failed
query up to 2 times (at most 3 attempts) with exponential backoff delays
of 500 and 1000 ms, regardless of whether the failure is transient, and
does not retry after a success; the docs backend's `query` helper never
retries at all. -/
theorem C9_retry_behavior :
    ∀ (attempts : Nat → Except DbFailure Nat),
      (dbQuery attempts).2 ≤ 3 ∧
      (∀ a, attempts 0 = .ok a → (dbQuery attempts).2 = 1) ∧
      (docQuery attempts).2 = 1 ∧
      dbRetryDelaysMs = [500, 1000] := by
  intro attempts
  refine ⟨?_, ?_, rfl, by decide⟩
  · rcases h0 : attempts 0 with e0 | a0 <;>
      rcases h1 : attempts 1 with e1 | a1 <;>
      simp [dbQuery, retryLoop, h0, h1]
  · intro a ha
    simp [dbQuery, retryLoop, ha]

/-- Claim C9, witness: a first-attempt success is never retried. -/
theorem C9_witness :
    (dbQuery (fun _ => (.ok 42 : Except DbFailure Nat))).2 = 1 :=
  (C9_retry_behavior (fun _ => .ok 42)).2.1 42 rfl

/-- Claim C10: `DocServiceLive.search` trims the query first
(`request.query.trim()`), so every whitespace-only query takes the
empty-query branch and returns `getAll` truncated to the limit instead of
substring-matching the whitespace. -/
theorem C10_whitespace_query :
    ∀ (req : SearchRequest) (s : Store), jsTrim req.query = "" →
      docSearch req s = (docGetAll s).take (req.limit.getD 50) := by
  intro req s h
  simp [docSearch, h, docGetAll]

/-- Claim C10, witness: the three-space query with no explicit limit. -/
theorem C10_witness :
    docSearch { query := "   ", limit := none } [searchCexOld, searchCexNew] =
      (docGetAll [searchCexOld, searchCexNew]).take 50 :=
  C10_whitespace_query { query := "   ", limit := none }
    [searchCexOld, searchCexNew] (by decide)

end DbSpec
